import Mathlib

/-!
Shallow embedding of the user-records CRUD view (src/ui/src/components/Home.vue).

The component keeps module-level reactive state (users list, draft record,
edit-mode flag and identifier, popup message state, delete-confirmation state)
and exposes handlers fetchUsers / addUser / editUser / updateUser / cancelEdit /
deleteUser / openConfirm / confirmDelete / cancelDelete.  Each handler is
embedded as a pure function from the view state (plus the responses the remote
API would return for the requests the handler issues) to the new view state
together with the list of HTTP requests the handler issued, in order.

JavaScript truthiness that the code relies on is modelled explicitly:
an empty string is falsy (the `errData.detail || fallback` and
`!newUser.value.name` patterns) and the number 0 is falsy
(the `if (!editingId.value) return` guard).
-/

namespace HomeVue

/-- A user record, as in the `User` interface of the component. -/
structure User where
  id : Int
  name : String
  email : String
deriving Repr, DecidableEq

/-- Popup message kind: the `messageType` ref is `success` or `error`. -/
inductive MsgType where
  | success
  | error
deriving Repr, DecidableEq

/-- The Django API base URL constant of the component. -/
def API_URL : String := "http://127.0.0.1:8000/api/users/"

/-- The reactive view state of the component: one field per `ref`.
(The popup hide timer and the background-image rotation are timed side
effects modelled separately.) -/
structure ViewState where
  users : List User
  newUser : User
  isEditing : Bool
  editingId : Option Int
  message : String
  showMessage : Bool
  messageType : MsgType
  confirmVisible : Bool
  confirmUserId : Option Int
deriving Repr, DecidableEq

/-- The initial values of the refs. -/
def initialState : ViewState :=
  { users := []
    newUser := { id := 0, name := "", email := "" }
    isEditing := false
    editingId := none
    message := ""
    showMessage := false
    messageType := .success
    confirmVisible := false
    confirmUserId := none }

/-- An HTTP request issued via `fetch`, with its URL and, for POST/PUT,
the JSON body as key/value pairs in the order they are written. -/
inductive Request where
  | get (url : String)
  | post (url : String) (body : List (String × String))
  | put (url : String) (body : List (String × String))
  | delete (url : String)
deriving Repr, DecidableEq

def Request.isPost : Request → Bool
  | .post _ _ => true
  | _ => false

def Request.isPut : Request → Bool
  | .put _ _ => true
  | _ => false

def Request.isDelete : Request → Bool
  | .delete _ => true
  | _ => false

/-- A top-level value of a JSON error body: either a string or an array of
strings (the shapes the error handling of the component exercises via
`Object.values(errData).flat()` and `errData.detail`). -/
inductive JsonVal where
  | str (s : String)
  | arr (xs : List String)
deriving Repr, DecidableEq

/-- A JSON error body: an object, as ordered key/value pairs. -/
abbrev JsonObj := List (String × JsonVal)

/-- JavaScript truthiness of a JSON value: the empty string is falsy,
every array (even empty) is truthy. -/
def JsonVal.truthy : JsonVal → Bool
  | .str s => s ≠ ""
  | .arr _ => true

/-- The string a JSON value contributes to an Error message
(JS Array.prototype.toString joins with a bare comma). -/
def JsonVal.toMsg : JsonVal → String
  | .str s => s
  | .arr xs => String.intercalate "," xs

/-- The expression `errData.detail || fallback`: the `detail` field of the
error body when present and truthy, else the fallback message. -/
def detailMsg (body : JsonObj) (fallback : String) : String :=
  match List.lookup "detail" body with
  | some v => if v.truthy then v.toMsg else fallback
  | none => fallback

/-- The expression `Object.values(errData).flat().join(...) || fallback`:
all top-level values, arrays flattened one level, joined with a comma and a
space; the fallback when the join is the (falsy) empty string. -/
def flatJoinMsg (body : JsonObj) (fallback : String) : String :=
  let joined := String.intercalate ", "
    (body.flatMap fun kv =>
      match kv.2 with
      | .str s => [s]
      | .arr xs => xs)
  if joined = "" then fallback else joined

/-- Response to the GET list request: a parsed user array on success, a JSON
error body on a non-ok status, or a thrown transport/parse error message. -/
inductive RespG where
  | ok (users : List User)
  | httpErr (body : JsonObj)
  | netErr (msg : String)
deriving Repr, DecidableEq

/-- Response to a mutating (POST/PUT/DELETE) request: success (body unused by
the component), a JSON error body on non-ok status, or a thrown
transport error message. -/
inductive RespM where
  | ok
  | httpErr (body : JsonObj)
  | netErr (msg : String)
deriving Repr, DecidableEq

/-- The handler `showPopup(msg, type)`, whose kind defaults to success:
sets message, kind, and visibility.  (The 2-second hide timeout is modelled
separately by `popupVisibleAt`.) -/
def showPopup (st : ViewState) (msg : String) (type : MsgType := .success) :
    ViewState :=
  { st with message := msg, messageType := type, showMessage := true }

/-- The handler `fetchUsers`: GET the collection; on success replace the users list, on
failure show an error popup built from `errData.detail` (or the thrown
message) prefixed with the warning emoji. -/
def fetchUsers (st : ViewState) (resp : RespG) : ViewState × List Request :=
  match resp with
  | .ok us => ({ st with users := us }, [Request.get API_URL])
  | .httpErr body =>
      (showPopup st ("⚠️ " ++ detailMsg body "Failed to fetch users") .error,
        [Request.get API_URL])
  | .netErr m =>
      (showPopup st ("⚠️ " ++ m) .error, [Request.get API_URL])

/-- The handler `addUser`: guard on a truthy name and email, else an error popup and no
request; otherwise POST the name/email pair, and on success re-fetch the
list, reset the draft, and show the success popup. -/
def addUser (st : ViewState) (resp : RespM) (fresp : RespG) :
    ViewState × List Request :=
  if st.newUser.name = "" ∨ st.newUser.email = "" then
    (showPopup st "Please fill all fields" .error, [])
  else
    let req := Request.post API_URL
      [("name", st.newUser.name), ("email", st.newUser.email)]
    match resp with
    | .ok =>
        let f := fetchUsers st fresp
        let st2 := { f.1 with newUser := { id := 0, name := "", email := "" } }
        (showPopup st2 "✅ User added successfully!", req :: f.2)
    | .httpErr body =>
        (showPopup st ("⚠️ " ++ flatJoinMsg body "Failed to add user") .error,
          [req])
    | .netErr m =>
        (showPopup st ("⚠️ " ++ m) .error, [req])

/-- The handler `editUser(user)`: enter edit mode, remember the identifier, copy the
record into the draft.  Issues no request. -/
def editUser (st : ViewState) (user : User) : ViewState × List Request :=
  ({ st with isEditing := true, editingId := some user.id, newUser := user },
    [])

/-- The handler `cancelEdit`: unconditionally exit edit mode, reset the draft, and show
the error-kind cancellation popup.  Issues no request. -/
def cancelEdit (st : ViewState) : ViewState × List Request :=
  (showPopup
      { st with isEditing := false, editingId := none,
                newUser := { id := 0, name := "", email := "" } }
      "❌ Edit cancelled" .error,
    [])

/-- The handler `updateUser`: return immediately when `editingId` is falsy,
that is null or 0;
otherwise PUT the draft name/email to the id-specific endpoint.  On success:
re-fetch, `cancelEdit()` (whose popup is immediately overwritten), success
popup.  On failure: error popup from the flattened-and-joined body. -/
def updateUser (st : ViewState) (resp : RespM) (fresp : RespG) :
    ViewState × List Request :=
  match st.editingId with
  | none => (st, [])
  | some i =>
    if i = 0 then (st, [])
    else
      let req := Request.put (API_URL ++ toString i ++ "/")
        [("name", st.newUser.name), ("email", st.newUser.email)]
      match resp with
      | .ok =>
          let f := fetchUsers st fresp
          let st2 := (cancelEdit f.1).1
          (showPopup st2 "✅ User updated successfully!", req :: f.2)
      | .httpErr body =>
          (showPopup st ("⚠️ " ++ flatJoinMsg body "Failed to update user")
              .error,
            [req])
      | .netErr m =>
          (showPopup st ("⚠️ " ++ m) .error, [req])

/-- The handler `deleteUser(id)`: DELETE the id-specific endpoint; on success re-fetch
and show the success popup, on failure an error popup from `errData.detail`
(or the thrown message).  Never throws to its caller. -/
def deleteUser (st : ViewState) (i : Int) (resp : RespM) (fresp : RespG) :
    ViewState × List Request :=
  let req := Request.delete (API_URL ++ toString i ++ "/")
  match resp with
  | .ok =>
      let f := fetchUsers st fresp
      (showPopup f.1 "🗑️ User deleted successfully!", req :: f.2)
  | .httpErr body =>
      (showPopup st ("⚠️ " ++ detailMsg body "Failed to delete user") .error,
        [req])
  | .netErr m =>
      (showPopup st ("⚠️ " ++ m) .error, [req])

/-- The handler `openConfirm(id)`: remember the target and show the confirmation dialog.
Issues no request. -/
def openConfirm (st : ViewState) (i : Int) : ViewState × List Request :=
  ({ st with confirmUserId := some i, confirmVisible := true }, [])

/-- The handler `confirmDelete`: when a pending identifier exists, run `deleteUser` on it
and then clear the confirmation state; otherwise do nothing at all. -/
def confirmDelete (st : ViewState) (resp : RespM) (fresp : RespG) :
    ViewState × List Request :=
  match st.confirmUserId with
  | none => (st, [])
  | some i =>
      let d := deleteUser st i resp fresp
      ({ d.1 with confirmVisible := false, confirmUserId := none }, d.2)

/-- The handler `cancelDelete`: clear the confirmation state; no request, no popup. -/
def cancelDelete (st : ViewState) : ViewState × List Request :=
  ({ st with confirmVisible := false, confirmUserId := none }, [])

/-- One user-triggered operation on the view, carrying the API responses the
handler would consume. -/
inductive Op where
  | fetch (resp : RespG)
  | add (resp : RespM) (fresp : RespG)
  | edit (user : User)
  | update (resp : RespM) (fresp : RespG)
  | cancelE
  | openC (i : Int)
  | confirmD (resp : RespM) (fresp : RespG)
  | cancelD
deriving Repr

/-- Apply an operation to the view state. -/
def applyOp (st : ViewState) : Op → ViewState × List Request
  | .fetch resp => fetchUsers st resp
  | .add resp fresp => addUser st resp fresp
  | .edit u => editUser st u
  | .update resp fresp => updateUser st resp fresp
  | .cancelE => cancelEdit st
  | .openC i => openConfirm st i
  | .confirmD resp fresp => confirmDelete st resp fresp
  | .cancelD => cancelDelete st

/-- View states reachable from the initial state by the operations of the
component. -/
inductive Reachable : ViewState → Prop where
  | init : Reachable initialState
  | step (st : ViewState) (op : Op) (h : Reachable st) :
      Reachable (applyOp st op).1

/-- The mutual-consistency invariant: the edit flag is set exactly when an
editing identifier is remembered, and the confirmation dialog is visible
exactly when a pending deletion identifier is remembered. -/
def consistent (st : ViewState) : Prop :=
  st.isEditing = st.editingId.isSome ∧
  st.confirmVisible = st.confirmUserId.isSome

instance (st : ViewState) : Decidable (consistent st) := by
  unfold consistent; infer_instance

/-! ### Timed model of the popup hide timeout

`showPopup` sets `showMessage := true` and schedules
`setTimeout(() => showMessage.value = false, 2000)` WITHOUT cancelling any
previously pending timeout: hide timers stack.  We model a sequence of
`showPopup` calls by their call times (in milliseconds) and compute the
visibility flag at a query time: the flag is true at time `t` exactly when
some call happened at `s ≤ t` and no scheduled hide fires strictly after `s`
and at or before `t`. -/

/-- The fixed popup display duration in milliseconds. -/
def hideDelay : Nat := 2000

/-- Visibility of the popup at time `t`, given the times of the `showPopup`
calls: true iff the last event at or before `t` is a show, where every call
at `s` also schedules a hide at `s + hideDelay` that is never cancelled. -/
def popupVisibleAt (shows : List Nat) (t : Nat) : Bool :=
  shows.any fun s =>
    s ≤ t && shows.all fun s2 => !(s < s2 + hideDelay && s2 + hideDelay ≤ t)

/-- The empty draft record the component resets the form to. -/
def emptyDraft : User := { id := 0, name := "", email := "" }

/-- A state with identifier 7 pending deletion (as after `openConfirm(7)`). -/
def stConfirm7 : ViewState :=
  { initialState with confirmUserId := some 7, confirmVisible := true }

/-- A state whose draft has name "a" and email "b". -/
def stDraftAB : ViewState :=
  { initialState with newUser := { id := 0, name := "a", email := "b" } }

/-- A state editing the record with identifier 5 (as after `editUser` on it). -/
def stEdit5 : ViewState :=
  { initialState with
      isEditing := true
      editingId := some 5
      newUser := { id := 5, name := "Bob", email := "bob@example.com" } }

/-! ### Helper lemmas: the handlers do not touch the edit/confirm flags
except where they explicitly assign them. -/

@[simp]
theorem showPopup_isEditing (st : ViewState) (m : String) (ty : MsgType) :
    (showPopup st m ty).isEditing = st.isEditing := rfl

@[simp]
theorem showPopup_editingId (st : ViewState) (m : String) (ty : MsgType) :
    (showPopup st m ty).editingId = st.editingId := rfl

@[simp]
theorem showPopup_confirmVisible (st : ViewState) (m : String) (ty : MsgType) :
    (showPopup st m ty).confirmVisible = st.confirmVisible := rfl

@[simp]
theorem showPopup_confirmUserId (st : ViewState) (m : String) (ty : MsgType) :
    (showPopup st m ty).confirmUserId = st.confirmUserId := rfl

@[simp]
theorem showPopup_newUser (st : ViewState) (m : String) (ty : MsgType) :
    (showPopup st m ty).newUser = st.newUser := rfl

@[simp]
theorem showPopup_users (st : ViewState) (m : String) (ty : MsgType) :
    (showPopup st m ty).users = st.users := rfl

@[simp]
theorem fetchUsers_isEditing (st : ViewState) (resp : RespG) :
    (fetchUsers st resp).1.isEditing = st.isEditing := by
  cases resp <;> rfl

@[simp]
theorem fetchUsers_editingId (st : ViewState) (resp : RespG) :
    (fetchUsers st resp).1.editingId = st.editingId := by
  cases resp <;> rfl

@[simp]
theorem fetchUsers_confirmVisible (st : ViewState) (resp : RespG) :
    (fetchUsers st resp).1.confirmVisible = st.confirmVisible := by
  cases resp <;> rfl

@[simp]
theorem fetchUsers_confirmUserId (st : ViewState) (resp : RespG) :
    (fetchUsers st resp).1.confirmUserId = st.confirmUserId := by
  cases resp <;> rfl

@[simp]
theorem fetchUsers_newUser (st : ViewState) (resp : RespG) :
    (fetchUsers st resp).1.newUser = st.newUser := by
  cases resp <;> rfl

@[simp]
theorem deleteUser_isEditing (st : ViewState) (i : Int) (resp : RespM)
    (fresp : RespG) :
    (deleteUser st i resp fresp).1.isEditing = st.isEditing := by
  cases resp <;> simp [deleteUser]

@[simp]
theorem deleteUser_editingId (st : ViewState) (i : Int) (resp : RespM)
    (fresp : RespG) :
    (deleteUser st i resp fresp).1.editingId = st.editingId := by
  cases resp <;> simp [deleteUser]

@[simp]
theorem deleteUser_confirmVisible (st : ViewState) (i : Int) (resp : RespM)
    (fresp : RespG) :
    (deleteUser st i resp fresp).1.confirmVisible = st.confirmVisible := by
  cases resp <;> simp [deleteUser]

@[simp]
theorem deleteUser_confirmUserId (st : ViewState) (i : Int) (resp : RespM)
    (fresp : RespG) :
    (deleteUser st i resp fresp).1.confirmUserId = st.confirmUserId := by
  cases resp <;> simp [deleteUser]

@[simp]
theorem addUser_isEditing (st : ViewState) (resp : RespM) (fresp : RespG) :
    (addUser st resp fresp).1.isEditing = st.isEditing := by
  by_cases h : st.newUser.name = "" ∨ st.newUser.email = "" <;>
    cases resp <;> simp [addUser, h]

@[simp]
theorem addUser_editingId (st : ViewState) (resp : RespM) (fresp : RespG) :
    (addUser st resp fresp).1.editingId = st.editingId := by
  by_cases h : st.newUser.name = "" ∨ st.newUser.email = "" <;>
    cases resp <;> simp [addUser, h]

@[simp]
theorem addUser_confirmVisible (st : ViewState) (resp : RespM)
    (fresp : RespG) :
    (addUser st resp fresp).1.confirmVisible = st.confirmVisible := by
  by_cases h : st.newUser.name = "" ∨ st.newUser.email = "" <;>
    cases resp <;> simp [addUser, h]

@[simp]
theorem addUser_confirmUserId (st : ViewState) (resp : RespM)
    (fresp : RespG) :
    (addUser st resp fresp).1.confirmUserId = st.confirmUserId := by
  by_cases h : st.newUser.name = "" ∨ st.newUser.email = "" <;>
    cases resp <;> simp [addUser, h]

/-- A string is a suffix (on the character level) of any string obtained by
prepending to it. -/
theorem data_suffix_append (a b : String) :
    List.IsSuffix b.data (a ++ b).data := by
  rw [String.data_append]
  exact List.suffix_append _ _

/-- C1: Deletion is two-phase.  `openConfirm(id)` only records the identifier
and shows the dialog and issues no request; `confirmDelete` issues exactly one
DELETE, targeting the endpoint path ending in the remembered identifier
followed by a slash, and clears the confirmation state whether the request
succeeds or fails; `cancelDelete` issues no request, clears the pending
identifier and dialog visibility, and shows no notification. -/
theorem deletion_two_phase (st : ViewState) (i : Int) (resp : RespM)
    (fresp : RespG) (h : st.confirmUserId = some i) :
    openConfirm st i =
      ({ st with confirmUserId := some i, confirmVisible := true }, []) ∧
    (confirmDelete st resp fresp).2.filter Request.isDelete =
      [Request.delete (API_URL ++ (toString i ++ "/"))] ∧
    List.IsSuffix (toString i ++ "/").data
      (API_URL ++ (toString i ++ "/")).data ∧
    (confirmDelete st resp fresp).1.confirmVisible = false ∧
    (confirmDelete st resp fresp).1.confirmUserId = none ∧
    cancelDelete st =
      ({ st with confirmVisible := false, confirmUserId := none }, []) := by
  refine ⟨rfl, ?_, data_suffix_append _ _, ?_, ?_, rfl⟩ <;>
    cases resp <;> cases fresp <;>
      simp [confirmDelete, deleteUser, fetchUsers, h, Request.isDelete,
        String.append_assoc]

theorem deletion_two_phase_witness :
    stConfirm7.confirmUserId = some 7 ∧
    (confirmDelete stConfirm7 .ok (.ok [])).1.confirmVisible = false ∧
    (confirmDelete stConfirm7 .ok (.ok [])).2.filter Request.isDelete =
      [Request.delete (API_URL ++ (toString (7 : Int) ++ "/"))] :=
  ⟨rfl,
    (deletion_two_phase stConfirm7 7 .ok (.ok []) rfl).2.2.2.1,
    (deletion_two_phase stConfirm7 7 .ok (.ok []) rfl).2.1⟩

/-- C2: Create with an empty name or email issues no request and shows an
error notification; with both non-empty it issues exactly one POST to the
collection endpoint carrying just the name and email (no identifier). -/
theorem create_guard (st : ViewState) (resp : RespM) (fresp : RespG) :
    ((st.newUser.name = "" ∨ st.newUser.email = "") →
      (addUser st resp fresp).2 = [] ∧
      (addUser st resp fresp).1.messageType = .error ∧
      (addUser st resp fresp).1.showMessage = true) ∧
    (st.newUser.name ≠ "" → st.newUser.email ≠ "" →
      (addUser st resp fresp).2.filter Request.isPost =
        [Request.post API_URL
          [("name", st.newUser.name), ("email", st.newUser.email)]]) := by
  constructor
  · intro h
    simp [addUser, h, showPopup]
  · intro h1 h2
    cases resp <;> cases fresp <;>
      simp [addUser, h1, h2, fetchUsers, Request.isPost]

theorem create_guard_witness :
    (addUser initialState .ok (.ok [])).2 = [] ∧
    (addUser stDraftAB .ok (.ok [])).2.filter Request.isPost =
      [Request.post API_URL [("name", "a"), ("email", "b")]] :=
  ⟨((create_guard initialState .ok (.ok [])).1 (Or.inl rfl)).1,
    (create_guard stDraftAB .ok (.ok [])).2 (by decide) (by decide)⟩

/-- C7: Cancel-edit unconditionally exits edit mode, resets the draft to the
empty record, issues no request, and shows an error-kind cancellation
notification; `editUser` followed by `cancelEdit` restores the empty draft
and exits edit mode with zero requests. -/
theorem cancel_edit_spec (st : ViewState) (u : User) :
    cancelEdit st =
      ({ st with
          isEditing := false
          editingId := none
          newUser := emptyDraft
          message := "❌ Edit cancelled"
          messageType := .error
          showMessage := true }, []) ∧
    (cancelEdit (editUser st u).1).1.isEditing = false ∧
    (cancelEdit (editUser st u).1).1.editingId = none ∧
    (cancelEdit (editUser st u).1).1.newUser = emptyDraft ∧
    (editUser st u).2 = [] ∧
    (cancelEdit (editUser st u).1).2 = [] :=
  ⟨rfl, rfl, rfl, rfl, rfl, rfl⟩

/-- C9: Update is guarded by JavaScript truthiness of the editing identifier:
when it is null or 0, Update issues no request and changes no state; after
entering edit mode on a record with identifier 0, Update is a silent no-op
although the edit flag is true. -/
theorem update_falsy_guard (st : ViewState) (resp : RespM) (fresp : RespG)
    (u : User) :
    ((st.editingId = none ∨ st.editingId = some 0) →
      updateUser st resp fresp = (st, [])) ∧
    (u.id = 0 →
      (editUser st u).1.isEditing = true ∧
      updateUser (editUser st u).1 resp fresp = ((editUser st u).1, [])) := by
  constructor
  · rintro (h | h) <;> simp [updateUser, h]
  · intro h
    exact ⟨rfl, by simp [updateUser, editUser, h]⟩

theorem update_falsy_guard_witness :
    updateUser initialState .ok (.ok []) = (initialState, []) ∧
    (editUser initialState { id := 0, name := "n", email := "e" }).1.isEditing
      = true :=
  ⟨(update_falsy_guard initialState .ok (.ok []) emptyDraft).1 (Or.inl rfl),
    ((update_falsy_guard initialState .ok (.ok [])
      { id := 0, name := "n", email := "e" }).2 rfl).1⟩

/-- C10: Confirm with no pending identifier is a complete no-op: no request
and the confirmation state (including the visibility flag) unchanged; the
state is cleared only when a pending identifier exists. -/
theorem confirm_delete_null_noop (st : ViewState) (resp : RespM)
    (fresp : RespG) (i : Int) :
    (st.confirmUserId = none → confirmDelete st resp fresp = (st, [])) ∧
    (st.confirmUserId = some i →
      (confirmDelete st resp fresp).1.confirmVisible = false ∧
      (confirmDelete st resp fresp).1.confirmUserId = none) := by
  constructor
  · intro h
    simp [confirmDelete, h]
  · intro h
    simp [confirmDelete, h]

/-- C5: While identifier X is being edited, every PUT Update issues targets
the endpoint path of X; after a successful Update the edit-mode state is
cleared, the list re-fetch is triggered, and the final notification shown is
the success one. -/
theorem update_targets_and_clears (st : ViewState) (i : Int) (resp : RespM)
    (fresp : RespG) (h : st.editingId = some i) :
    (∀ r ∈ (updateUser st resp fresp).2, r.isPut = true →
      r = Request.put (API_URL ++ (toString i ++ "/"))
        [("name", st.newUser.name), ("email", st.newUser.email)]) ∧
    (i ≠ 0 →
      (updateUser st .ok fresp).1.isEditing = false ∧
      (updateUser st .ok fresp).1.editingId = none ∧
      (updateUser st .ok fresp).1.newUser = emptyDraft ∧
      Request.get API_URL ∈ (updateUser st .ok fresp).2 ∧
      (updateUser st .ok fresp).1.message = "✅ User updated successfully!" ∧
      (updateUser st .ok fresp).1.messageType = .success ∧
      (updateUser st .ok fresp).1.showMessage = true) := by
  constructor
  · by_cases hi : i = 0
    · simp [updateUser, h, hi]
    · cases resp <;> cases fresp <;>
        simp [updateUser, h, hi, fetchUsers, cancelEdit, showPopup,
          Request.isPut, String.append_assoc]
  · intro hi
    cases fresp <;>
      simp [updateUser, h, hi, fetchUsers, cancelEdit, showPopup, emptyDraft]

theorem update_targets_and_clears_witness :
    stEdit5.editingId = some 5 ∧ (5 : Int) ≠ 0 ∧
    (updateUser stEdit5 .ok (.ok [])).1.isEditing = false ∧
    (updateUser stEdit5 .ok (.ok [])).1.editingId = none :=
  ⟨rfl, by decide,
    ((update_targets_and_clears stEdit5 5 .ok (.ok []) rfl).2 (by decide)).1,
    ((update_targets_and_clears stEdit5 5 .ok (.ok []) rfl).2 (by decide)).2.1⟩

/-- C6: Failures are atomic for the data of the view: a failed Create or
Update
(non-ok status or transport error) leaves the draft buffer unchanged, and a
failed List fetch leaves the displayed user sequence unchanged. -/
theorem failure_atomic :
    (∀ (st : ViewState) (body : JsonObj) (fresp : RespG),
      (addUser st (.httpErr body) fresp).1.newUser = st.newUser) ∧
    (∀ (st : ViewState) (m : String) (fresp : RespG),
      (addUser st (.netErr m) fresp).1.newUser = st.newUser) ∧
    (∀ (st : ViewState) (body : JsonObj) (fresp : RespG),
      (updateUser st (.httpErr body) fresp).1.newUser = st.newUser) ∧
    (∀ (st : ViewState) (m : String) (fresp : RespG),
      (updateUser st (.netErr m) fresp).1.newUser = st.newUser) ∧
    (∀ (st : ViewState) (body : JsonObj),
      (fetchUsers st (.httpErr body)).1.users = st.users) ∧
    (∀ (st : ViewState) (m : String),
      (fetchUsers st (.netErr m)).1.users = st.users) := by
  refine ⟨?_, ?_, ?_, ?_, fun st body => rfl, fun st m => rfl⟩ <;>
    intro st x fresp
  · by_cases h : st.newUser.name = "" ∨ st.newUser.email = "" <;>
      simp [addUser, h]
  · by_cases h : st.newUser.name = "" ∨ st.newUser.email = "" <;>
      simp [addUser, h]
  · rcases h : st.editingId with _ | i
    · simp [updateUser, h]
    · by_cases hi : i = 0 <;> simp [updateUser, h, hi]
  · rcases h : st.editingId with _ | i
    · simp [updateUser, h]
    · by_cases hi : i = 0 <;> simp [updateUser, h, hi]

/-- C3 counterexample: when Update fails with body
`{"email": ["already exists"]}`, the notification text is the extracted
message prefixed with the warning emoji and a space, so it does not equal
"already exists" as the claim states. -/
theorem update_dup_email_counterexample :
    (updateUser stEdit5 (.httpErr [("email", .arr ["already exists"])])
        (.ok [])).1.message = "⚠️ already exists" ∧
    ("⚠️ already exists" : String) ≠ "already exists" :=
  ⟨rfl, by decide⟩

/-- C3 (amended): when Update fails with body
`{"email": ["already exists"]}`, the notification text is "⚠️ " followed by
"already exists" (the top-level values of the error body, arrays flattened,
joined with ", ", prefixed by the warning emoji and a space), the kind is
error, edit mode stays active with flag and identifier unchanged, and the
draft is left intact. -/
theorem update_dup_email_spec (st : ViewState) (i : Int) (fresp : RespG)
    (h : st.editingId = some i) (hi : i ≠ 0) :
    (updateUser st (.httpErr [("email", .arr ["already exists"])])
        fresp).1.message = "⚠️ " ++ "already exists" ∧
    (updateUser st (.httpErr [("email", .arr ["already exists"])])
        fresp).1.messageType = .error ∧
    (updateUser st (.httpErr [("email", .arr ["already exists"])])
        fresp).1.showMessage = true ∧
    (updateUser st (.httpErr [("email", .arr ["already exists"])])
        fresp).1.isEditing = st.isEditing ∧
    (updateUser st (.httpErr [("email", .arr ["already exists"])])
        fresp).1.editingId = st.editingId ∧
    (updateUser st (.httpErr [("email", .arr ["already exists"])])
        fresp).1.newUser = st.newUser := by
  simp [updateUser, h, hi, showPopup, flatJoinMsg]
  decide

theorem update_dup_email_spec_witness :
    stEdit5.editingId = some 5 ∧ (5 : Int) ≠ 0 ∧
    (updateUser stEdit5 (.httpErr [("email", .arr ["already exists"])])
        (.ok [])).1.messageType = .error ∧
    (updateUser stEdit5 (.httpErr [("email", .arr ["already exists"])])
        (.ok [])).1.newUser = stEdit5.newUser :=
  ⟨rfl, by decide,
    (update_dup_email_spec stEdit5 5 (.ok []) rfl (by decide)).2.1,
    (update_dup_email_spec stEdit5 5 (.ok []) rfl (by decide)).2.2.2.2.2⟩

theorem confirm_delete_null_noop_witness :
    confirmDelete { initialState with confirmVisible := true } .ok (.ok []) =
      ({ initialState with confirmVisible := true }, []) ∧
    (confirmDelete stConfirm7 .ok (.ok [])).1.confirmUserId = none :=
  ⟨(confirm_delete_null_noop { initialState with confirmVisible := true }
      .ok (.ok []) 0).1 rfl,
    ((confirm_delete_null_noop stConfirm7 .ok (.ok []) 7).2 rfl).2⟩

/-- C8: The mutual-consistency invariant holds in every state reachable from
the initial state: the edit flag equals the presence of an editing
identifier, and the dialog visibility equals the presence of a pending
deletion identifier. -/
theorem flags_mutually_consistent (st : ViewState) (h : Reachable st) :
    consistent st := by
  induction h with
  | init => exact ⟨rfl, rfl⟩
  | step st op h ih =>
    obtain ⟨h1, h2⟩ := ih
    cases op with
    | fetch resp => exact ⟨by simp [applyOp, h1], by simp [applyOp, h2]⟩
    | add resp fresp => exact ⟨by simp [applyOp, h1], by simp [applyOp, h2]⟩
    | edit u => exact ⟨rfl, by simp [applyOp, editUser, h2]⟩
    | update resp fresp =>
        rcases heq : st.editingId with _ | i
        · exact ⟨by simp [applyOp, updateUser, heq, h1],
            by simp [applyOp, updateUser, heq, h2]⟩
        · by_cases hi : i = 0
          · exact ⟨by simp [applyOp, updateUser, heq, hi, h1],
              by simp [applyOp, updateUser, heq, hi, h2]⟩
          · cases resp <;>
              exact ⟨by simp [applyOp, updateUser, heq, hi, cancelEdit, h1],
                by simp [applyOp, updateUser, heq, hi, cancelEdit, h2]⟩
    | cancelE => exact ⟨rfl, by simp [applyOp, cancelEdit, h2]⟩
    | openC i => exact ⟨by simp [applyOp, openConfirm, h1], rfl⟩
    | confirmD resp fresp =>
        rcases heq : st.confirmUserId with _ | i
        · exact ⟨by simp [applyOp, confirmDelete, heq, h1],
            by simp [applyOp, confirmDelete, heq, h2]⟩
        · exact ⟨by simp [applyOp, confirmDelete, heq, h1], by
            simp [applyOp, confirmDelete, heq]⟩
    | cancelD => exact ⟨by simp [applyOp, cancelDelete, h1], rfl⟩

theorem flags_mutually_consistent_witness : consistent initialState :=
  flags_mutually_consistent initialState Reachable.init

/-- C4 counterexample: the second popup is shown 1000 ms after the first,
within the 2000 ms display window of the first popup, yet at 2500 ms, still
within 2000 ms of the second show, the visibility flag is already false,
because the hide timer of the first popup was never cancelled. -/
theorem popup_timer_counterexample :
    (0 : Nat) < 1000 ∧ 1000 ≤ 2500 ∧ 2500 < 1000 + hideDelay ∧
    popupVisibleAt [0, 1000] 2500 = false := by
  decide

/-- C4 (amended): visibility is true immediately after any show event, and a
lone notification auto-hides exactly when its 2-second delay elapses,
regardless of kind; but hide timers are stacked, not restarted: when a
second notification is shown before the first delay elapses, visibility
lasts only until the timer of the FIRST notification fires (first show time
plus
the fixed delay), not for the full delay from the second show. -/
theorem popup_visibility_spec (shows : List Nat) (s t t1 t2 : Nat)
    (hmem : s ∈ shows) (h12 : t1 < t2) (hlt : t2 < t1 + hideDelay) :
    popupVisibleAt shows s = true ∧
    (popupVisibleAt [s] t = true ↔ s ≤ t ∧ t < s + hideDelay) ∧
    (popupVisibleAt [t1, t2] t = true ↔ t1 ≤ t ∧ t < t1 + hideDelay) := by
  simp only [hideDelay] at hlt
  refine ⟨?_, ?_, ?_⟩
  · unfold popupVisibleAt
    refine List.any_eq_true.mpr ⟨s, hmem, ?_⟩
    simp only [List.all_eq_true, Bool.and_eq_true, Bool.not_eq_true',
      decide_eq_true_eq, Bool.and_eq_false_iff, decide_eq_false_iff_not]
    exact ⟨le_refl s, fun s2 _ => by omega⟩
  · simp only [popupVisibleAt, hideDelay, List.any_cons, List.any_nil,
      List.all_cons, List.all_nil, Bool.and_eq_true, Bool.or_eq_true,
      Bool.not_eq_true', Bool.and_eq_false_iff, decide_eq_true_eq,
      decide_eq_false_iff_not, Bool.and_true, Bool.or_false]
    omega
  · simp only [popupVisibleAt, hideDelay, List.any_cons, List.any_nil,
      List.all_cons, List.all_nil, Bool.and_eq_true, Bool.or_eq_true,
      Bool.not_eq_true', Bool.and_eq_false_iff, decide_eq_true_eq,
      decide_eq_false_iff_not, Bool.and_true, Bool.or_false]
    omega

theorem popup_visibility_spec_witness :
    (3 : Nat) ∈ [3] ∧ (0 : Nat) < 1000 ∧ 1000 < 0 + hideDelay ∧
    popupVisibleAt [3] 3 = true ∧
    (popupVisibleAt [0, 1000] 1500 = true ↔
      (0 : Nat) ≤ 1500 ∧ 1500 < 0 + hideDelay) :=
  ⟨by decide, by decide, by decide,
    (popup_visibility_spec [3] 3 0 0 1000 (by decide) (by decide)
      (by decide)).1,
    (popup_visibility_spec [3] 3 1500 0 1000 (by decide) (by decide)
      (by decide)).2.2⟩

end HomeVue
